import Mathlib

/-!
Shallow embedding of the two-factor gate, session store, persona registry
and command-handler gating of the chat-bridge bot (src/bot.py and
src/lib/auth.py), together with theorems verifying the specification's
claims about them.

Modelling conventions:
* Timestamps are abstract ticks (Nat); `datetime.min` is 0 and
  `timedelta(minutes=10)` is the constant `tenMinutes`.  `datetime.now()`
  becomes an explicit `now` parameter threaded through the operations.
* The random draw of `secrets.randbelow(1_000_000)` becomes an explicit
  parameter `n : Nat`; the SMTP send outcome becomes a parameter
  `emailOk : Bool`.
* Python's f-string `f"{n:06d}"` is the decimal representation of n
  (Lean core's `Nat.toDigits 10`) left-padded with the character 0 to
  width 6.
* Python dicts (the sessions store, the agents map) are ordered
  association lists with `dictLookup` modelling key lookup; fresh
  uuid4 tokens are explicit `freshToken` parameters.
-/

namespace ChatAgent

/-- Python's `str.strip()`: remove leading and trailing whitespace. -/
def pyStrip (s : String) : String :=
  String.mk ((s.data.dropWhile Char.isWhitespace).reverse.dropWhile Char.isWhitespace).reverse

/-- `timedelta(minutes=10)` in abstract ticks. -/
def tenMinutes : Nat := 600

/-- State of `TwoFactorAuth` (src/lib/auth.py): stored code, expiry, verified flag. -/
structure TwoFactorAuth where
  code : String
  expires : Nat
  verified : Bool
deriving DecidableEq, Repr

/-- `TwoFactorAuth.__init__`: empty code, `datetime.min` expiry, unverified. -/
def TwoFactorAuth.init : TwoFactorAuth :=
  { code := "", expires := 0, verified := false }

/-- `generate_code` (src/lib/auth.py): `f"{secrets.randbelow(1_000_000):06d}"`,
with the random draw `n` made an explicit parameter.  The decimal
representation of `n` is left-padded with zeros to width 6. -/
def generate_code (n : Nat) : String :=
  String.mk (List.replicate (6 - (Nat.toDigits 10 n).length) '0' ++ Nat.toDigits 10 n)

/-- `TwoFactorAuth.generate_and_send`: replaces code and expiry, clears
verified, then attempts the email send (whose outcome `emailOk` is the
returned Bool).  The state replacement happens before and regardless of
the send. -/
def TwoFactorAuth.generate_and_send (_tfa : TwoFactorAuth) (now : Nat)
    (n : Nat) (emailOk : Bool) : Bool × TwoFactorAuth :=
  let tfa' : TwoFactorAuth :=
    { code := generate_code n, expires := now + tenMinutes, verified := false }
  (emailOk, tfa')

/-- `TwoFactorAuth.check_code`: fails when now is past the expiry; otherwise
compares the stripped input with the stored code, setting verified on match. -/
def TwoFactorAuth.check_code (tfa : TwoFactorAuth) (now : Nat)
    (user_code : String) : Bool × TwoFactorAuth :=
  if tfa.expires < now then (false, tfa)
  else if pyStrip user_code = tfa.code then (true, { tfa with verified := true })
  else (false, tfa)

/-- `TwoFactorAuth.is_expired`: past expiry while still unverified. -/
def TwoFactorAuth.is_expired (tfa : TwoFactorAuth) (now : Nat) : Bool :=
  decide (tfa.expires < now) && !tfa.verified

/-- Numeric value of an ASCII digit character. -/
def chVal (c : Char) : Nat := c.toNat - 48

/-- Numeric value of a digit string (most significant first). -/
def strVal (l : List Char) : Nat := l.foldl (fun a c => 10 * a + chVal c) 0



/-- Key lookup in a Python dict modelled as an ordered association list. -/
def dictLookup {α : Type} : List (String × α) → String → Option α
  | [], _ => none
  | (k, v) :: rest, key => if k = key then some v else dictLookup rest key



/-- `get_session_id` (src/bot.py): returns the stored token for `agent_id`,
or mints the fresh uuid4 token (explicit parameter `freshToken`), appends
it to the store and persists.  Result: (token, updated store). -/
def get_session_id (sessions : List (String × String)) (agent_id : String)
    (freshToken : String) : String × List (String × String) :=
  match dictLookup sessions agent_id with
  | some t => (t, sessions)
  | none => (freshToken, sessions ++ [(agent_id, freshToken)])

/-- `reset_session` (src/bot.py): removes the mapping for `agent_id` if
present and reports whether one existed. -/
def reset_session (sessions : List (String × String)) (agent_id : String) :
    Bool × List (String × String) :=
  match dictLookup sessions agent_id with
  | some _ => (true, sessions.filter (fun q => ! (q.1 == agent_id)))
  | none => (false, sessions)

/-! ### Agent registry (src/bot.py) -/

/-- One configured persona: display name, emoji, system prompt, model. -/
structure Agent where
  name : String
  emoji : String
  system_prompt : String
  model : Option String
deriving DecidableEq, Repr

/-- The agents.json document: default identifier (absent key defaults to
"assistant" at the read site) and the ordered persona map. -/
structure AgentConfig where
  dfltId : Option String
  agents : List (String × Agent)
deriving DecidableEq, Repr

/-- A persona as returned by `get_active_agent`: the agent dict with its
"id" key set. -/
structure ResolvedAgent where
  id : String
  name : String
  emoji : String
  system_prompt : String
  model : Option String
deriving DecidableEq, Repr

/-- The hardcoded built-in persona returned for an empty registry. -/
def builtinAgent : ResolvedAgent :=
  { id := "default", name := "Standard", emoji := "🤖",
    system_prompt := "", model := some "opus" }

/-- Annotate a configured agent with its identifier (`agent["id"] = aid`). -/
def Agent.withId (a : Agent) (aid : String) : ResolvedAgent :=
  { id := aid, name := a.name, emoji := a.emoji,
    system_prompt := a.system_prompt, model := a.model }

/-- `get_active_agent` (src/bot.py): resolves the Active-Persona Pointer
(or the configured default) in the agents map, falling back to the first
registered persona, or to the built-in persona when the registry is empty. -/
def get_active_agent (config : AgentConfig) (pointer : Option String) :
    ResolvedAgent :=
  let agent_id := pointer.getD (config.dfltId.getD "assistant")
  match dictLookup config.agents agent_id with
  | some a => a.withId agent_id
  | none =>
    match config.agents with
    | (first_id, a) :: _ => a.withId first_id
    | [] => builtinAgent

/-! ### Bot state and handler effects (src/bot.py) -/

/-- The mutable process-wide state the handlers touch: the 2FA gate `tfa`,
the Active-Persona Pointer `ACTIVE_AGENT` and the durable sessions store. -/
structure BotState where
  tfa : TwoFactorAuth
  pointer : Option String
  sessions : List (String × String)
deriving DecidableEq, Repr

/-- Externally visible actions of a handler, in order: replies sent to the
chat, the audit-side-channel `log_request`, launching the external process,
and attempting the 2FA email send. -/
inductive Effect where
  | reply (msg : String)
  | logRequest
  | invokeProcess
  | sendEmail
deriving DecidableEq, Repr

/-- The "locked" refusal sent by gated handlers while unverified. -/
def lockedMsg : String := "Bot ist gesperrt. Bitte 2FA-Code eingeben:"

/-- `split_send` (src/bot.py): empty output is replaced by a placeholder,
otherwise the text is sent in chunks of at most 4000 characters. -/
def split_send (text : String) : List Effect :=
  if pyStrip text = "" then [Effect.reply "(keine Ausgabe)"]
  else (text.data.toChunks 4000).map (fun l => Effect.reply (String.mk l))

/-- Combine captured stdout and stderr as the handlers do. -/
def combineOutput (out err : String) : String :=
  if pyStrip err = "" then pyStrip out
  else pyStrip out ++ "\n\n--- STDERR ---\n" ++ pyStrip err

/-- Outcome of one external claude CLI invocation. -/
inductive InvocationResult where
  | success (out err : String)
  | timeout
  | notFound
  | otherError (msg : String)
deriving DecidableEq, Repr

/-- Outcome of one `/bash` shell invocation (no distinct not-found case:
`FileNotFoundError` falls into the generic `except Exception`). -/
inductive ShellResult where
  | success (out err : String)
  | timeout
  | otherError (msg : String)
deriving DecidableEq, Repr

def claudeTimeoutMsg : String :=
  "Timeout: Claude Code hat nach 5 Minuten nicht geantwortet."

def claudeNotFoundMsg : String :=
  "Fehler: \x27claude\x27 CLI nicht gefunden. Ist Claude Code installiert?"

/-- `cmd_claude` (src/bot.py): authorization check, verified re-check,
usage hint on empty prompt, then persona resolution, session resolution
(which may mint and persist a fresh token) inside `build_claude_cmd`,
the process launch, and per-outcome replies. -/
def cmd_claude (chatId allowedId : Int) (st : BotState) (config : AgentConfig)
    (args : List String) (freshToken : String) (res : InvocationResult) :
    List Effect × BotState :=
  if ¬ (chatId = allowedId) then ([], st)
  else if ¬ st.tfa.verified then ([Effect.reply lockedMsg], st)
  else
    let prompt := String.intercalate " " args
    if prompt = "" then ([Effect.reply "Verwendung: /claude <deine Nachricht>"], st)
    else
      let agent := get_active_agent config st.pointer
      let minted := get_session_id st.sessions agent.id freshToken
      let st1 : BotState := { st with sessions := minted.2 }
      match res with
      | InvocationResult.success out err =>
          (Effect.logRequest :: Effect.invokeProcess :: split_send (combineOutput out err), st1)
      | InvocationResult.timeout =>
          ([Effect.logRequest, Effect.invokeProcess, Effect.reply claudeTimeoutMsg], st1)
      | InvocationResult.notFound =>
          ([Effect.logRequest, Effect.invokeProcess, Effect.reply claudeNotFoundMsg], st1)
      | InvocationResult.otherError e =>
          ([Effect.logRequest, Effect.invokeProcess, Effect.reply (String.append "Fehler: " e)], st1)

/-- `cmd_bash` (src/bot.py): authorization check, verified re-check, usage
hint, then the shell invocation; no persona or session resolution. -/
def cmd_bash (chatId allowedId : Int) (st : BotState) (args : List String)
    (res : ShellResult) : List Effect × BotState :=
  if ¬ (chatId = allowedId) then ([], st)
  else if ¬ st.tfa.verified then ([Effect.reply lockedMsg], st)
  else
    let command := String.intercalate " " args
    if command = "" then ([Effect.reply "Verwendung: /bash <befehl>"], st)
    else
      match res with
      | ShellResult.success out err =>
          (Effect.logRequest :: Effect.invokeProcess :: split_send (combineOutput out err), st)
      | ShellResult.timeout =>
          ([Effect.logRequest, Effect.invokeProcess,
            Effect.reply "Timeout: Befehl hat nach 2 Minuten nicht geantwortet."], st)
      | ShellResult.otherError e =>
          ([Effect.logRequest, Effect.invokeProcess, Effect.reply (String.append "Fehler: " e)], st)

/-- `cmd_2fa` (src/bot.py): authorization check only — no verified
re-check — then `generate_and_send` and a reply per email outcome. -/
def cmd_2fa (chatId allowedId : Int) (st : BotState) (now : Nat)
    (n : Nat) (emailOk : Bool) : List Effect × BotState :=
  if ¬ (chatId = allowedId) then ([], st)
  else
    let r := st.tfa.generate_and_send now n emailOk
    let st1 : BotState := { st with tfa := r.2 }
    if r.1 then
      ([Effect.sendEmail,
        Effect.reply "Neuer 2FA-Code wurde per E-Mail gesendet. Bitte eingeben:"], st1)
    else
      ([Effect.sendEmail,
        Effect.reply "Fehler beim Senden des 2FA-Codes. Prüfe SMTP-Einstellungen in .env."], st1)

/-- The help text sent by `cmd_start`. -/
def startHelpText (agent : ResolvedAgent) : String :=
  "Claude Code Telegram Bridge aktiv.\nAktiver Agent: " ++ agent.emoji ++ " " ++
    agent.name ++ "\n\n--- Agenten ---\n/agent <name> - Agent wechseln\n" ++
    "/agents - Alle Agenten anzeigen\n\n--- Claude ---\n/claude <nachricht> - Nachricht senden\n" ++
    "Freitext / Foto - Direkt an Agent\n\n--- System ---\n/bash <befehl> - Shell ausführen\n" ++
    "/newsession - Frische Konversation\n/2fa - Neuen 2FA-Code anfordern\n/status - Bot-Status\n/restart - Bot neustarten"

/-- `cmd_start` (src/bot.py): authorization check, verified re-check, then
persona resolution, audit log and the help reply. -/
def cmd_start (chatId allowedId : Int) (st : BotState) (config : AgentConfig) :
    List Effect × BotState :=
  if ¬ (chatId = allowedId) then ([], st)
  else if ¬ st.tfa.verified then ([Effect.reply lockedMsg], st)
  else
    let agent := get_active_agent config st.pointer
    ([Effect.logRequest, Effect.reply (startHelpText agent)], st)

/-- `handle_2fa_check` (src/bot.py, group -1): silently drops unauthorized
senders, passes through when already verified or on empty text, otherwise
treats the stripped text as a code guess and replies with one of the three
outcomes. -/
def handle_2fa_check (chatId allowedId : Int) (st : BotState) (now : Nat)
    (text : Option String) : List Effect × BotState :=
  if ¬ (chatId = allowedId) then ([], st)
  else if st.tfa.verified then ([], st)
  else
    let t := pyStrip (text.getD "")
    if t = "" then ([], st)
    else
      let r := st.tfa.check_code now t
      if r.1 then
        ([Effect.reply "2FA erfolgreich! Bot ist jetzt freigeschaltet."],
         { st with tfa := r.2 })
      else if r.2.is_expired now then
        ([Effect.reply "2FA-Code abgelaufen. Nutze /2fa für einen neuen Code."],
         { st with tfa := r.2 })
      else
        ([Effect.reply "Falscher Code. Bitte 2FA-Code eingeben:"],
         { st with tfa := r.2 })


/-- Iterate `check_code` over a sequence of (time, input) submissions,
keeping the evolving gate state. -/
def runChecks (tfa : TwoFactorAuth) (inputs : List (Nat × String)) :
    TwoFactorAuth :=
  inputs.foldl (fun t p => (t.check_code p.1 p.2).2) tfa

/-- Persona resolution at the state level: `get_active_agent` reads the
Active-Persona Pointer and returns the process state untouched (the source
function never writes `ACTIVE_AGENT`). -/
def resolve_active (config : AgentConfig) (st : BotState) :
    ResolvedAgent × BotState :=
  (get_active_agent config st.pointer, st)

/-- A sample unverified bot state used by concrete witnesses. -/
def sampleUnverified : BotState :=
  { tfa := { code := "999999", expires := 50, verified := false },
    pointer := none, sessions := [] }

/-- A sample verified bot state used by concrete witnesses. -/
def sampleVerified : BotState :=
  { tfa := { code := "999999", expires := 50, verified := true },
    pointer := none, sessions := [] }

/-- A sample one-persona registry used by concrete witnesses. -/
def sampleConfig : AgentConfig :=
  { dfltId := some "a",
    agents := [("a", { name := "Alpha", emoji := "", system_prompt := "", model := none })] }

/-! ### Proof development -/

/-! ### Decimal representation lemmas for `generate_code` -/

/-- The accumulator of `Nat.toDigitsCore` is simply appended to the result. -/
theorem toDigitsCore_accum (fuel : Nat) : ∀ (n : Nat) (ds : List Char),
    Nat.toDigitsCore 10 fuel n ds = Nat.toDigitsCore 10 fuel n [] ++ ds := by
  induction fuel with
  | zero => intro n ds; simp [Nat.toDigitsCore]
  | succ fuel ih =>
    intro n ds
    simp only [Nat.toDigitsCore]
    by_cases h : n / 10 = 0
    · simp [h]
    · simp only [h, if_neg]
      rw [ih (n / 10) (Nat.digitChar (n % 10) :: ds),
          ih (n / 10) (Nat.digitChar (n % 10) :: [])]
      simp

/-- Any fuel larger than `n` computes the same digit list. -/
theorem toDigitsCore_fuel (n : Nat) : ∀ (f1 f2 : Nat), n < f1 → n < f2 →
    ∀ ds, Nat.toDigitsCore 10 f1 n ds = Nat.toDigitsCore 10 f2 n ds := by
  induction n using Nat.strong_induction_on with
  | _ n ih =>
    intro f1 f2 h1 h2 ds
    match f1, f2 with
    | g1 + 1, g2 + 1 =>
      simp only [Nat.toDigitsCore]
      by_cases h : n / 10 = 0
      · simp [h]
      · simp only [h, if_neg]
        have hn : 0 < n := by
          rcases Nat.eq_zero_or_pos n with h0 | h0
          · exact absurd (by simp [h0]) h
          · exact h0
        have hdiv : n / 10 < n := Nat.div_lt_self hn (by omega)
        exact ih (n / 10) hdiv g1 g2 (by omega) (by omega) _

/-- Base case of the decimal representation: a single digit. -/
theorem toDigits_base (n : Nat) (h : n < 10) :
    Nat.toDigits 10 n = [Nat.digitChar n] := by
  have hd : n / 10 = 0 := Nat.div_eq_of_lt h
  have hm : n % 10 = n := Nat.mod_eq_of_lt h
  simp [Nat.toDigits, Nat.toDigitsCore, hd, hm]

/-- Step case of the decimal representation: peel off the last digit. -/
theorem toDigits_step (n : Nat) (h : ¬ n < 10) :
    Nat.toDigits 10 n = Nat.toDigits 10 (n / 10) ++ [Nat.digitChar (n % 10)] := by
  have hd : ¬ (n / 10 = 0) := by omega
  show Nat.toDigitsCore 10 (n + 1) n [] = _
  simp only [Nat.toDigitsCore]
  rw [if_neg hd, toDigitsCore_accum]
  congr 1
  exact toDigitsCore_fuel (n / 10) n (n / 10 + 1) (by omega) (Nat.lt_succ_self _) []

/-- `n < 10 ^ k` has at most `k` decimal digits (for `k ≥ 1`). -/
theorem toDigits_length_le (n : Nat) : ∀ (k : Nat), 1 ≤ k → n < 10 ^ k →
    (Nat.toDigits 10 n).length ≤ k := by
  induction n using Nat.strong_induction_on with
  | _ n ih =>
    intro k hk h
    by_cases hsmall : n < 10
    · rw [toDigits_base n hsmall]; simpa using hk
    · rw [toDigits_step n hsmall]
      have hn : 0 < n := by omega
      have hdiv : n / 10 < n := Nat.div_lt_self hn (by omega)
      have hk2 : 2 ≤ k := by
        by_contra hlt
        have : k = 1 := by omega
        subst this
        simp at h
        omega
      have hstep : n / 10 < 10 ^ (k - 1) := by
        have hpow : 10 ^ (k - 1) * 10 = 10 ^ k := by
          have : k - 1 + 1 = k := by omega
          calc 10 ^ (k - 1) * 10 = 10 ^ (k - 1 + 1) := by ring
            _ = 10 ^ k := by rw [this]
        exact (Nat.div_lt_iff_lt_mul (by omega)).mpr (by omega)
      have := ih (n / 10) hdiv (k - 1) (by omega) hstep
      simp only [List.length_append, List.length_cons, List.length_nil]
      omega

/-- Every digit character of a value below 10 is an ASCII digit. -/
theorem digitChar_isDigit (m : Nat) (h : m < 10) :
    (Nat.digitChar m).isDigit = true := by
  revert h
  revert m
  decide

/-- Every character of the decimal representation is an ASCII digit. -/
theorem toDigits_all_digits (n : Nat) :
    ∀ c ∈ Nat.toDigits 10 n, c.isDigit = true := by
  induction n using Nat.strong_induction_on with
  | _ n ih =>
    intro c hc
    by_cases hsmall : n < 10
    · rw [toDigits_base n hsmall] at hc
      simp at hc
      subst hc
      exact digitChar_isDigit n hsmall
    · rw [toDigits_step n hsmall] at hc
      have hn : 0 < n := by omega
      rcases List.mem_append.mp hc with h1 | h2
      · exact ih (n / 10) (Nat.div_lt_self hn (by omega)) c h1
      · simp at h2
        subst h2
        exact digitChar_isDigit (n % 10) (Nat.mod_lt n (by omega))

theorem chVal_digitChar (m : Nat) (h : m < 10) : chVal (Nat.digitChar m) = m := by
  revert h
  revert m
  decide

theorem strVal_append_digit (l : List Char) (c : Char) :
    strVal (l ++ [c]) = 10 * strVal l + chVal c := by
  simp [strVal, List.foldl_append]

/-- Decoding the decimal representation recovers the number. -/
theorem strVal_toDigits (n : Nat) : strVal (Nat.toDigits 10 n) = n := by
  induction n using Nat.strong_induction_on with
  | _ n ih =>
    by_cases hsmall : n < 10
    · rw [toDigits_base n hsmall]
      simp [strVal, chVal_digitChar n hsmall]
    · rw [toDigits_step n hsmall, strVal_append_digit]
      have hn : 0 < n := by omega
      rw [ih (n / 10) (Nat.div_lt_self hn (by omega)),
          chVal_digitChar (n % 10) (Nat.mod_lt n (by omega))]
      omega

/-- Leading zero padding does not change the decoded value. -/
theorem strVal_pad (k : Nat) (l : List Char) :
    strVal (List.replicate k '0' ++ l) = strVal l := by
  induction k with
  | zero => simp
  | succ k ih =>
    have : List.replicate (k + 1) '0' ++ l = '0' :: (List.replicate k '0' ++ l) := by
      simp [List.replicate_succ]
    rw [this]
    show (List.replicate k '0' ++ l).foldl (fun a c => 10 * a + chVal c) (10 * 0 + chVal '0') = _
    have hz : 10 * 0 + chVal '0' = 0 := by decide
    rw [hz]
    exact ih

/-- `generate_code n` has exactly six characters when `n < 1000000`. -/
theorem generate_code_length (n : Nat) (h : n < 1000000) :
    (generate_code n).length = 6 := by
  have hle : (Nat.toDigits 10 n).length ≤ 6 :=
    toDigits_length_le n 6 (by omega) (by norm_num at h ⊢; omega)
  show (String.mk _).length = 6
  simp only [String.length, generate_code, List.length_append, List.length_replicate]
  omega

/-- Every character of `generate_code n` is an ASCII digit. -/
theorem generate_code_all_digits (n : Nat) :
    ∀ c ∈ (generate_code n).data, c.isDigit = true := by
  intro c hc
  simp only [generate_code] at hc
  rcases List.mem_append.mp hc with h1 | h2
  · have := List.eq_of_mem_replicate h1
    subst this
    decide
  · exact toDigits_all_digits n c h2

/-- `generate_code` is injective: uniform draws give uniform codes. -/
theorem generate_code_inj (m n : Nat)
    (h : generate_code m = generate_code n) : m = n := by
  have hdata : (generate_code m).data = (generate_code n).data := by rw [h]
  simp only [generate_code] at hdata
  have hm' : strVal (List.replicate (6 - (Nat.toDigits 10 m).length) '0' ++ Nat.toDigits 10 m) = m := by
    rw [strVal_pad, strVal_toDigits]
  have hn' : strVal (List.replicate (6 - (Nat.toDigits 10 n).length) '0' ++ Nat.toDigits 10 n) = n := by
    rw [strVal_pad, strVal_toDigits]
  rw [← hm', ← hn', hdata]

theorem dictLookup_append_absent {α : Type} (l : List (String × α)) (key : String)
    (v : α) (h : dictLookup l key = none) :
    dictLookup (l ++ [(key, v)]) key = some v := by
  induction l with
  | nil => simp [dictLookup]
  | cons p rest ih =>
    match p with
    | (k, w) =>
      by_cases hk : k = key
      · simp [dictLookup, hk] at h
      · simp only [dictLookup, List.cons_append, if_neg hk] at h ⊢
        exact ih h

theorem dictLookup_filter_self {α : Type} (l : List (String × α)) (key : String) :
    dictLookup (l.filter (fun q => ! (q.1 == key))) key = none := by
  induction l with
  | nil => simp [dictLookup]
  | cons p rest ih =>
    match p with
    | (k, w) =>
      by_cases hk : k = key
      · subst hk
        simpa [List.filter_cons] using ih
      · have hb : ((k, w).1 == key) = false := by
          simp [hk]
        rw [List.filter_cons, hb]
        simp only [Bool.not_false, if_pos]
        show dictLookup ((k, w) :: _) key = none
        simp only [dictLookup, if_neg hk]
        exact ih



/-! ### Claim theorems : the two-factor gate -/

/-- C1 counterexample: the claim "a failing call leaves the verified flag
false" fails for a gate state that is already verified: a wrong code after
verification returns failure but leaves verified true. -/
theorem C1_counterexample :
    (({ code := "111111", expires := 100, verified := true } : TwoFactorAuth).check_code 50 "222222").1 = false ∧
    (({ code := "111111", expires := 100, verified := true } : TwoFactorAuth).check_code 50 "222222").2.verified = true := by
  decide

/-- C1 (amended): `check_code` returns success iff the stripped input
equals the stored code and now is not past the expiry; every failing call
returns failure and leaves the whole gate state — in particular the
verified flag — unchanged (hence still false whenever it was false). -/
theorem C1_check_code_amended (tfa : TwoFactorAuth) (now : Nat) (s : String) :
    ((tfa.check_code now s).1 = true ↔ (pyStrip s = tfa.code ∧ now ≤ tfa.expires)) ∧
    ((tfa.check_code now s).1 = false → (tfa.check_code now s).2 = tfa) := by
  constructor
  · constructor
    · intro h
      unfold TwoFactorAuth.check_code at h
      by_cases h1 : tfa.expires < now
      · rw [if_pos h1] at h
        exact absurd h (by simp)
      · by_cases h2 : pyStrip s = tfa.code
        · exact ⟨h2, by omega⟩
        · rw [if_neg h1, if_neg h2] at h
          exact absurd h (by simp)
    · intro h
      obtain ⟨hs, ht⟩ := h
      unfold TwoFactorAuth.check_code
      rw [if_neg (by omega : ¬ tfa.expires < now), if_pos hs]
  · intro h
    unfold TwoFactorAuth.check_code at h ⊢
    by_cases h1 : tfa.expires < now
    · rw [if_pos h1]
    · by_cases h2 : pyStrip s = tfa.code
      · rw [if_neg h1, if_pos h2] at h
        exact absurd h (by simp)
      · rw [if_neg h1, if_neg h2]

/-- C1 witness: the amended theorem applied at a concrete failing input. -/
theorem C1_witness :
    (({ code := "111111", expires := 100, verified := false } : TwoFactorAuth).check_code 50 "222222").2 =
      { code := "111111", expires := 100, verified := false } :=
  (C1_check_code_amended { code := "111111", expires := 100, verified := false } 50 "222222").2 (by decide)

/-- C3 counterexample: with email dispatch failing, the prior code "654321"
and prior expiry 42 do not remain live — the freshly generated code and
expiry replace them. -/
theorem C3_counterexample :
    (({ code := "654321", expires := 42, verified := false } : TwoFactorAuth).generate_and_send 100 123456 false) =
      (false, { code := "123456", expires := 700, verified := false }) ∧
    ¬ ("123456" = "654321") ∧ ¬ ((700 : Nat) = 42) := by
  decide

/-- C3 (amended): a failing dispatch is surfaced as a false return and the
resulting gate state does not depend on the email outcome; but the state
has already been replaced at the start of the call, so after a failing
call the freshly generated code and expiry are live, not the prior ones. -/
theorem C3_generate_and_send_amended (tfa : TwoFactorAuth) (now : Nat) (n : Nat) :
    (tfa.generate_and_send now n false).1 = false ∧
    (tfa.generate_and_send now n false).2 = (tfa.generate_and_send now n true).2 ∧
    (tfa.generate_and_send now n false).2 =
      { code := generate_code n, expires := now + tenMinutes, verified := false } :=
  ⟨rfl, rfl, rfl⟩

/-- C4: once verified, any sequence of further `check_code` calls with
arbitrary times and inputs leaves verified true, and a subsequent
`generate_and_send` resets it to false. -/
theorem C4_verified_stable (tfa : TwoFactorAuth) (inputs : List (Nat × String))
    (now : Nat) (n : Nat) (emailOk : Bool) (h : tfa.verified = true) :
    (runChecks tfa inputs).verified = true ∧
    ((runChecks tfa inputs).generate_and_send now n emailOk).2.verified = false := by
  refine ⟨?_, rfl⟩
  induction inputs generalizing tfa with
  | nil => exact h
  | cons p rest ih =>
    have hstep : ((tfa.check_code p.1 p.2).2).verified = true := by
      unfold TwoFactorAuth.check_code
      by_cases h1 : tfa.expires < p.1
      · simpa [h1] using h
      · by_cases h2 : pyStrip p.2 = tfa.code
        · simp [h1, h2]
        · simpa [h1, h2] using h
    exact ih ((tfa.check_code p.1 p.2).2) hstep

/-- C4 witness: a verified gate stays verified across two wrong guesses
and is reset by the next generate_and_send. -/
theorem C4_witness :
    (runChecks { code := "111111", expires := 100, verified := true }
        [(10, "000000"), (2000, "111111")]).verified = true ∧
    ((runChecks { code := "111111", expires := 100, verified := true }
        [(10, "000000"), (2000, "111111")]).generate_and_send 0 5 true).2.verified = false :=
  C4_verified_stable { code := "111111", expires := 100, verified := true }
    [(10, "000000"), (2000, "111111")] 0 5 true rfl

/-- C5: every `generate_and_send` call, for either email outcome, installs
the freshly formatted code (six characters, all decimal digits, injoctively
determined by the uniform draw n), sets the expiry to now plus ten minutes,
clears verified, and returns the dispatch outcome. -/
theorem C5_generate_and_send_replaces (tfa : TwoFactorAuth) (now : Nat)
    (n : Nat) (emailOk : Bool) (h : n < 1000000) :
    (tfa.generate_and_send now n emailOk).2.code = generate_code n ∧
    (generate_code n).length = 6 ∧
    (∀ c ∈ (generate_code n).data, c.isDigit = true) ∧
    (∀ m : Nat, generate_code m = generate_code n → m = n) ∧
    (tfa.generate_and_send now n emailOk).2.expires = now + tenMinutes ∧
    (tfa.generate_and_send now n emailOk).2.verified = false ∧
    (tfa.generate_and_send now n emailOk).1 = emailOk :=
  ⟨rfl, generate_code_length n h, generate_code_all_digits n,
   fun m hm => generate_code_inj m n hm, rfl, rfl, rfl⟩

/-- C5 witness: the replacement theorem at a concrete state and draw. -/
theorem C5_witness :
    (({ code := "654321", expires := 42, verified := true } : TwoFactorAuth).generate_and_send 100 7 false).2.code =
      generate_code 7 ∧
    (generate_code 7).length = 6 ∧
    (∀ c ∈ (generate_code 7).data, c.isDigit = true) ∧
    (∀ m : Nat, generate_code m = generate_code 7 → m = 7) ∧
    (({ code := "654321", expires := 42, verified := true } : TwoFactorAuth).generate_and_send 100 7 false).2.expires = 100 + tenMinutes ∧
    (({ code := "654321", expires := 42, verified := true } : TwoFactorAuth).generate_and_send 100 7 false).2.verified = false ∧
    (({ code := "654321", expires := 42, verified := true } : TwoFactorAuth).generate_and_send 100 7 false).1 = false :=
  C5_generate_and_send_replaces { code := "654321", expires := 42, verified := true } 100 7 false (by decide)

/-- C10: in the gate state created by `TwoFactorAuth.__init__` (empty code,
minimal expiry, unverified), `check_code` fails for every input — including
the empty string, whose stripped form equals the stored empty code —
whenever the current time is after the minimal timestamp, so the gate
cannot become verified before a code is generated. -/
theorem C10_init_never_verifies (s : String) (now : Nat) (h : 0 < now) :
    (TwoFactorAuth.init.check_code now s).1 = false ∧
    (TwoFactorAuth.init.check_code now s).2.verified = false := by
  unfold TwoFactorAuth.init TwoFactorAuth.check_code
  simp [h]

/-- C10 witness: the empty input at time 1 still fails. -/
theorem C10_witness :
    (TwoFactorAuth.init.check_code 1 "").1 = false ∧
    (TwoFactorAuth.init.check_code 1 "").2.verified = false :=
  C10_init_never_verifies "" 1 (by decide)



/-! ### Claim theorems : handlers, sessions, personas -/

/-- C2 counterexample: `cmd_2fa` is a command handler reachable by an
authorized sender that does not re-check the verified flag: invoked on an
unverified gate it does not refuse with the locked response but proceeds
to regenerate and email a code, mutating the gate state. -/
theorem C2_counterexample :
    ¬ (cmd_2fa 5 5 sampleUnverified 100 123456 true).1 = [Effect.reply lockedMsg] ∧
    Effect.sendEmail ∈ (cmd_2fa 5 5 sampleUnverified 100 123456 true).1 ∧
    ¬ (cmd_2fa 5 5 sampleUnverified 100 123456 true).2.tfa = sampleUnverified.tfa := by
  decide

/-- C2 (amended): every modelled command handler except `/2fa` re-checks
the verified flag and, while unverified, refuses an authorized sender with
the locked response, leaving the state untouched and performing no persona
resolution, session-store access or external-process invocation; `/2fa`
deliberately requires only authorization so a locked operator can request
a fresh code. -/
theorem C2_handlers_locked (chatId allowedId : Int) (st : BotState)
    (config : AgentConfig) (args : List String) (f : String)
    (rc : InvocationResult) (rb : ShellResult)
    (ha : chatId = allowedId) (hv : st.tfa.verified = false) :
    cmd_claude chatId allowedId st config args f rc = ([Effect.reply lockedMsg], st) ∧
    cmd_bash chatId allowedId st args rb = ([Effect.reply lockedMsg], st) ∧
    cmd_start chatId allowedId st config = ([Effect.reply lockedMsg], st) := by
  subst ha
  unfold cmd_claude cmd_bash cmd_start
  simp [hv]

/-- C2 witness: the locked refusals at a concrete unverified state. -/
theorem C2_witness :
    cmd_claude 5 5 sampleUnverified sampleConfig ["x"] "tok" InvocationResult.timeout =
      ([Effect.reply lockedMsg], sampleUnverified) ∧
    cmd_bash 5 5 sampleUnverified ["x"] ShellResult.timeout =
      ([Effect.reply lockedMsg], sampleUnverified) ∧
    cmd_start 5 5 sampleUnverified sampleConfig =
      ([Effect.reply lockedMsg], sampleUnverified) :=
  C2_handlers_locked 5 5 sampleUnverified sampleConfig ["x"] "tok"
    InvocationResult.timeout ShellResult.timeout rfl rfl

/-- C6: an update whose chat identity differs from the configured one is
dropped by every modelled handler: no effect is produced (in particular no
reply is sent) and the state is unchanged. -/
theorem C6_unauthorized_silent (chatId allowedId : Int) (st : BotState)
    (config : AgentConfig) (args : List String) (f : String)
    (rc : InvocationResult) (rb : ShellResult) (now : Nat) (n : Nat)
    (emailOk : Bool) (text : Option String) (h : ¬ chatId = allowedId) :
    cmd_start chatId allowedId st config = ([], st) ∧
    cmd_2fa chatId allowedId st now n emailOk = ([], st) ∧
    cmd_claude chatId allowedId st config args f rc = ([], st) ∧
    cmd_bash chatId allowedId st args rb = ([], st) ∧
    handle_2fa_check chatId allowedId st now text = ([], st) := by
  unfold cmd_start cmd_2fa cmd_claude cmd_bash handle_2fa_check
  simp [h]

/-- C6 witness: an unauthorized chat id produces no effects anywhere. -/
theorem C6_witness :
    cmd_start 1 2 sampleUnverified sampleConfig = ([], sampleUnverified) ∧
    cmd_2fa 1 2 sampleUnverified 100 123456 true = ([], sampleUnverified) ∧
    cmd_claude 1 2 sampleUnverified sampleConfig ["x"] "tok" InvocationResult.timeout =
      ([], sampleUnverified) ∧
    cmd_bash 1 2 sampleUnverified ["x"] ShellResult.timeout = ([], sampleUnverified) ∧
    handle_2fa_check 1 2 sampleUnverified 100 (some "123456") = ([], sampleUnverified) :=
  C6_unauthorized_silent 1 2 sampleUnverified sampleConfig ["x"] "tok"
    InvocationResult.timeout ShellResult.timeout 100 123456 true (some "123456") (by decide)

/-- C7: two `get_session_id` calls without an intervening reset return the
identical token; `reset_session` removes the mapping and reports whether
one existed; after a reset, resolution returns the freshly minted token,
which (uuid4 freshness hypothesis) differs from every previously issued
token for that persona. -/
theorem C7_session_round_trip (sessions : List (String × String))
    (p f1 f2 : String) (prevTokens : List String)
    (hfresh : ¬ f2 ∈ prevTokens) :
    (get_session_id (get_session_id sessions p f1).2 p f2).1 =
      (get_session_id sessions p f1).1 ∧
    (reset_session sessions p).1 = (dictLookup sessions p).isSome ∧
    dictLookup (reset_session sessions p).2 p = none ∧
    (get_session_id (reset_session sessions p).2 p f2).1 = f2 ∧
    ¬ (get_session_id (reset_session sessions p).2 p f2).1 ∈ prevTokens := by
  have hreset : dictLookup (reset_session sessions p).2 p = none := by
    unfold reset_session
    cases hl : dictLookup sessions p with
    | none => simpa using hl
    | some t => simpa using dictLookup_filter_self sessions p
  have hmint : (get_session_id (reset_session sessions p).2 p f2).1 = f2 := by
    unfold get_session_id
    rw [hreset]
  refine ⟨?_, ?_, hreset, hmint, ?_⟩
  · unfold get_session_id
    cases hl : dictLookup sessions p with
    | none =>
      rw [dictLookup_append_absent sessions p f1 hl]
    | some t =>
      rw [hl]
  · unfold reset_session
    cases hl : dictLookup sessions p with
    | none => simp
    | some t => simp
  · rw [hmint]
    exact hfresh

/-- C7 witness: the round trip at a concrete store. -/
theorem C7_witness :
    (get_session_id (get_session_id [("b", "t0")] "a" "u1").2 "a" "u2").1 =
      (get_session_id [("b", "t0")] "a" "u1").1 ∧
    (reset_session [("b", "t0")] "a").1 = (dictLookup [("b", "t0")] "a").isSome ∧
    dictLookup (reset_session [("b", "t0")] "a").2 "a" = none ∧
    (get_session_id (reset_session [("b", "t0")] "a").2 "a" "u2").1 = "u2" ∧
    ¬ (get_session_id (reset_session [("b", "t0")] "a").2 "a" "u2").1 ∈ ["u1"] :=
  C7_session_round_trip [("b", "t0")] "a" "u1" "u2" ["u1"] (by decide)

/-- C8: with an empty registry `get_active_agent` returns the built-in
persona with identifier "default"; with a non-empty registry whose
requested identifier (pointer, or configured default) is absent from the
agents map it returns the first registered persona annotated with that
persona's identifier; and the resolution never mutates the state (in
particular not the Active-Persona Pointer). -/
theorem C8_active_agent_fallback (config : AgentConfig) (st : BotState) :
    (config.agents = [] →
      get_active_agent config st.pointer = builtinAgent ∧ builtinAgent.id = "default") ∧
    (∀ first_id a rest, config.agents = (first_id, a) :: rest →
      dictLookup config.agents (st.pointer.getD (config.dfltId.getD "assistant")) = none →
      get_active_agent config st.pointer = a.withId first_id) ∧
    (resolve_active config st).2 = st := by
  refine ⟨?_, ?_, rfl⟩
  · intro h
    refine ⟨?_, rfl⟩
    unfold get_active_agent
    rw [h]
    rfl
  · intro first_id a rest hfirst habsent
    unfold get_active_agent
    simp only [habsent]
    simp only [hfirst]

/-- C8 witness: the empty-registry case and the absent-default case at
concrete registries. -/
theorem C8_witness :
    (get_active_agent { dfltId := some "a", agents := [] } none = builtinAgent ∧
      builtinAgent.id = "default") ∧
    get_active_agent
        { dfltId := some "ghost",
          agents := [("a", { name := "Alpha", emoji := "", system_prompt := "", model := none })] }
        none =
      Agent.withId { name := "Alpha", emoji := "", system_prompt := "", model := none } "a" :=
  ⟨(C8_active_agent_fallback { dfltId := some "a", agents := [] }
      { tfa := TwoFactorAuth.init, pointer := none, sessions := [] }).1 rfl,
   (C8_active_agent_fallback
      { dfltId := some "ghost",
        agents := [("a", { name := "Alpha", emoji := "", system_prompt := "", model := none })] }
      { tfa := TwoFactorAuth.init, pointer := none, sessions := [] }).2.1
     "a" { name := "Alpha", emoji := "", system_prompt := "", model := none } [] rfl (by decide)⟩

/-- C9: when the external invocation fails by timeout, by missing
executable or by any other exception, `cmd_claude` relays the
corresponding failure message (timeout and not-found messages being
distinct strings, the generic one carrying the exception text) and the
post-state equals the state immediately before the launch — the gate, the
Active-Persona Pointer and the session store (already holding any token
minted while building the command) are untouched by the failure. -/
theorem C9_claude_failures_frame (chatId allowedId : Int) (st : BotState)
    (config : AgentConfig) (args : List String) (f : String) (e : String)
    (ha : chatId = allowedId) (hv : st.tfa.verified = true)
    (hp : ¬ String.intercalate " " args = "") :
    cmd_claude chatId allowedId st config args f InvocationResult.timeout =
      ([Effect.logRequest, Effect.invokeProcess, Effect.reply claudeTimeoutMsg],
       { st with sessions := (get_session_id st.sessions (get_active_agent config st.pointer).id f).2 }) ∧
    cmd_claude chatId allowedId st config args f InvocationResult.notFound =
      ([Effect.logRequest, Effect.invokeProcess, Effect.reply claudeNotFoundMsg],
       { st with sessions := (get_session_id st.sessions (get_active_agent config st.pointer).id f).2 }) ∧
    cmd_claude chatId allowedId st config args f (InvocationResult.otherError e) =
      ([Effect.logRequest, Effect.invokeProcess, Effect.reply (String.append "Fehler: " e)],
       { st with sessions := (get_session_id st.sessions (get_active_agent config st.pointer).id f).2 }) ∧
    ({ st with sessions := (get_session_id st.sessions (get_active_agent config st.pointer).id f).2 } : BotState).tfa = st.tfa ∧
    ({ st with sessions := (get_session_id st.sessions (get_active_agent config st.pointer).id f).2 } : BotState).pointer = st.pointer ∧
    ¬ claudeTimeoutMsg = claudeNotFoundMsg := by
  subst ha
  unfold cmd_claude
  refine ⟨?_, ?_, ?_, rfl, rfl, by decide⟩ <;> simp [hv, hp]

/-- C9 witness: the three failure outcomes at a concrete verified state. -/
theorem C9_witness :
    cmd_claude 5 5 sampleVerified sampleConfig ["hi"] "tok" InvocationResult.timeout =
      ([Effect.logRequest, Effect.invokeProcess, Effect.reply claudeTimeoutMsg],
       { sampleVerified with
          sessions := (get_session_id sampleVerified.sessions
            (get_active_agent sampleConfig sampleVerified.pointer).id "tok").2 }) ∧
    cmd_claude 5 5 sampleVerified sampleConfig ["hi"] "tok" InvocationResult.notFound =
      ([Effect.logRequest, Effect.invokeProcess, Effect.reply claudeNotFoundMsg],
       { sampleVerified with
          sessions := (get_session_id sampleVerified.sessions
            (get_active_agent sampleConfig sampleVerified.pointer).id "tok").2 }) ∧
    cmd_claude 5 5 sampleVerified sampleConfig ["hi"] "tok" (InvocationResult.otherError "boom") =
      ([Effect.logRequest, Effect.invokeProcess, Effect.reply (String.append "Fehler: " "boom")],
       { sampleVerified with
          sessions := (get_session_id sampleVerified.sessions
            (get_active_agent sampleConfig sampleVerified.pointer).id "tok").2 }) ∧
    ({ sampleVerified with
        sessions := (get_session_id sampleVerified.sessions
          (get_active_agent sampleConfig sampleVerified.pointer).id "tok").2 } : BotState).tfa =
      sampleVerified.tfa ∧
    ({ sampleVerified with
        sessions := (get_session_id sampleVerified.sessions
          (get_active_agent sampleConfig sampleVerified.pointer).id "tok").2 } : BotState).pointer =
      sampleVerified.pointer ∧
    ¬ claudeTimeoutMsg = claudeNotFoundMsg :=
  C9_claude_failures_frame 5 5 sampleVerified sampleConfig ["hi"] "tok" "boom"
    rfl rfl (by decide)


end ChatAgent
